import Mathlib

/-!
Verification of the streaming line-protocol consumer and response
accumulation logic of the OllamaLearn-Hub repository.

The embedding models the relevant Python functions:

* `src/src/2_streaming_response.py`, `streaming_request`: iterates over
  `response.iter_lines()`, skips falsy (empty) lines, parses each line as
  JSON (silently skipping lines that raise `JSONDecodeError`), prints the
  `response` field (default `""`) of each parsed object, and prints final
  stats whenever the `done` flag (default `False`) is true.  The loop has
  no `break`: it continues past a `done` fragment.
* `src/src/3_conversation.py`, `OllamaChatbot.chat`: same line loop, but
  accumulates the pieces into `full_response` (`full_response += token`);
  on a clean end it appends `{user, assistant: full_response.strip()}` to
  `conversation_history` and returns `full_response`; on
  `requests.exceptions.ConnectionError` or any other `Exception` it
  returns `None` without touching the history.  With `stream=False` it
  instead parses the whole body and uses `result.get("response", "")`.
* `src/src/1_basic_request.py`, `simple_request`: non-streaming request;
  on success returns the stripped `response` field and computes
  the stats `tokens` (the `eval_count` field of the parsed body, default
  0) and `duration_s` (the `total_duration` field, default 0, divided by
  1_000_000_000 when nonzero, else 0); on
  `ConnectionError` or any `RequestException` it returns `None`.
* `src/app.py`, `query_ollama` (with `stream=False`): returns a dict with
  keys `response`, `tokens`, `duration`, `status` on success, and an
  error dict `{response: message, status: "error"}` from the
  `ConnectionError`, `Timeout` and generic `Exception` handlers.

The JSON library (`json.loads`) and HTTP transport (`requests`) are
external to the repository; they are abstracted as events: each input
line is either empty, malformed (parse failure), or a parsed JSON object
whose fields, when present, carry the types the scripts read.
Python `str.strip()` is modelled by `String.trim`; Python float division
by `1e9` is modelled exactly over `ℚ` (the claims only involve values
that floats represent exactly).
-/

namespace OllamaHub

/-- Terminal classification of one consumer call, per the spec taxonomy
(spec section 7).  Each constructor corresponds to a distinguishable
cause in the code: which `except` branch runs and why. -/
inductive Outcome where
  | success
  | connectionFailed
  | timedOut
  | malformedFragment
  | otherError
deriving DecidableEq, Repr

/-- Kind of exception raised by the `requests` transport:
`requests.exceptions.ConnectionError`, `requests.exceptions.Timeout`,
or any other exception (e.g. `HTTPError` from `raise_for_status`). -/
inductive ErrKind where
  | conn
  | timeout
  | other
deriving DecidableEq, Repr

/-- Outcome classification of a transport exception by its kind. -/
def errOutcome : ErrKind → Outcome
  | .conn => .connectionFailed
  | .timeout => .timedOut
  | .other => .otherError

/-- A parsed JSON object, restricted to the fields the scripts read
(`json_response.get("response", "")`, `.get("done", False)`,
`.get("eval_count", ...)`, `.get("total_duration", ...)`).  Each field is
`none` when the key is absent from the object. -/
structure JsonObj where
  response : Option String := none
  done : Option Bool := none
  eval_count : Option Int := none
  total_duration : Option Int := none
deriving DecidableEq, Repr

/-- Evaluation of `json_response.get("response", "")`: the text piece of
a fragment, defaulting to the empty string when the field is absent. -/
def fragPiece (o : JsonObj) : String := o.response.getD ""

/-- Evaluation of `json_response.get("done", False)`: the completion flag
of a fragment, defaulting to `false` when the field is absent. -/
def fragDone (o : JsonObj) : Bool := o.done.getD false

/-- One line yielded by `response.iter_lines()`: empty (falsy, skipped by
`if line:`), malformed (raises `json.JSONDecodeError` in `json.loads`),
or a line parsing to a JSON object. -/
inductive Line where
  | empty
  | malformed (raw : String)
  | fragment (o : JsonObj)
deriving DecidableEq, Repr

/-- Whether a line is well formed: empty or parsing to a JSON object. -/
def Line.wellFormed : Line → Bool
  | .malformed _ => false
  | _ => true

/-- The text pieces of the fragments of a line list, in arrival order
(empty and malformed lines contribute nothing). -/
def textPieces : List Line → List String
  | [] => []
  | .empty :: rest => textPieces rest
  | .malformed _ :: rest => textPieces rest
  | .fragment o :: rest => fragPiece o :: textPieces rest

/-- Ordered concatenation of every fragment piece of a line list: the
reference value the spec calls `GenerationResult.text`. -/
def concatPieces : List Line → String
  | [] => ""
  | .empty :: rest => concatPieces rest
  | .malformed _ :: rest => concatPieces rest
  | .fragment o :: rest => fragPiece o ++ concatPieces rest

/-- The accumulation loop of `OllamaChatbot.chat` (stream branch,
`3_conversation.py` lines 90-98): for each truthy line, try to parse it;
on success append `json_resp.get("response", "")` to `full_response`; a
`JSONDecodeError` is passed over.  There is no `done` check and no `break`. -/
def chatLoop (acc : String) : List Line → String
  | [] => acc
  | .empty :: rest => chatLoop acc rest
  | .malformed _ :: rest => chatLoop acc rest
  | .fragment o :: rest => chatLoop (acc ++ fragPiece o) rest

/-- Value of `full_response` after the streaming loop, from `""`. -/
def chatAccum (lines : List Line) : String := chatLoop "" lines

/-- The sequence of tokens printed by `streaming_request`
(`2_streaming_response.py` lines 48-69): the value of
`json_response.get("response", "")` for each successfully parsed
non-empty line, in order.
The loop never breaks, so every line of the stream is processed. -/
def streamingTokens : List Line → List String
  | [] => []
  | .empty :: rest => streamingTokens rest
  | .malformed _ :: rest => streamingTokens rest
  | .fragment o :: rest => fragPiece o :: streamingTokens rest

/-- The fragments at which `streaming_request` prints its final stats:
every parsed fragment whose `done` flag is true (the loop does not stop
at the first one). -/
def doneFrags : List Line → List JsonObj
  | [] => []
  | .empty :: rest => doneFrags rest
  | .malformed _ :: rest => doneFrags rest
  | .fragment o :: rest =>
      if fragDone o then o :: doneFrags rest else doneFrags rest

/-- Modelled from the spec: the streaming scripts never materialize a
`token_count` field (`streaming_request` only prints the `eval_count`
field, with a default of "N/A", at a `done` fragment, and
`OllamaChatbot.chat` reads no stats at all), so the spec data model rule
— `token_count` is the `eval_count` of the final fragment, or zero if
absent / if no final fragment is seen — is modelled here directly. -/
def streamTokenCount (lines : List Line) : Int :=
  match (doneFrags lines).head? with
  | some o => o.eval_count.getD 0
  | none => 0

/-- Modelled from the spec: `duration_seconds` of the streaming mode,
`total_duration_ns / 1e9` from the final fragment, or zero when absent
or when no final fragment is seen; the streaming scripts themselves
never compute it (see `streamTokenCount`). -/
def streamDuration (lines : List Line) : ℚ :=
  match (doneFrags lines).head? with
  | some o => ((o.total_duration.getD 0 : Int) : ℚ) / 1000000000
  | none => 0

/-- One entry of `conversation_history`: a dict
`{user: ..., assistant: ...}` appended by `OllamaChatbot.chat`. -/
structure Exchange where
  user : String
  assistant : String
deriving DecidableEq, Repr

/-- How one call to `OllamaChatbot.chat` unfolds at the transport level:
the request itself raises (`requests.post` / `raise_for_status`), or the
stream branch iterates over `lines` and then either ends cleanly or the
iteration raises, or the non-stream branch reads a whole body that
parses to `some` object or fails to parse (`none`). -/
inductive ChatEvent where
  | pre (k : ErrKind)
  | stream (lines : List Line) (ending : Option ErrKind)
  | whole (parsed : Option JsonObj)
deriving DecidableEq, Repr

/-- Result of one `OllamaChatbot.chat` call: the conversation history
after the call, the returned value (`none` models Python `None`), and
the outcome classification of the run. -/
structure ChatOut where
  history : List Exchange
  reply : Option String
  outcome : Outcome
deriving DecidableEq, Repr

/-- Embedding of `OllamaChatbot.chat` (`3_conversation.py` lines 58-122),
as a function of the prior `conversation_history`, the user message and
the transport event.  On a clean run `full_response` is accumulated (or
read from the whole body), one exchange
`{user: user_message, assistant: full_response.strip()}` is appended,
and `full_response` is returned.  Every exception path (connection
error, timeout, HTTP error, whole-body parse failure) is caught by the
two `except` clauses and returns `None` before the append executes, so
the history is left untouched.  The outcome field classifies the cause:
a whole-body parse failure in the non-streaming branch is the spec
taxonomy member `malformedFragment`. -/
def chat (hist : List Exchange) (msg : String) : ChatEvent → ChatOut
  | .pre k => ⟨hist, none, errOutcome k⟩
  | .stream lines none =>
      ⟨hist ++ [⟨msg, (chatAccum lines).trim⟩], some (chatAccum lines),
        .success⟩
  | .stream _ (some k) => ⟨hist, none, errOutcome k⟩
  | .whole none => ⟨hist, none, .malformedFragment⟩
  | .whole (some o) =>
      ⟨hist ++ [⟨msg, (fragPiece o).trim⟩], some (fragPiece o), .success⟩

/-- How a non-streaming call unfolds: the request raises with some kind,
the whole body fails to parse as JSON (raising a decode error whose
message is `msg`), or the body parses to an object. -/
inductive NonStreamEvent where
  | connError
  | timeoutError
  | httpError (msg : String)
  | jsonError (msg : String)
  | body (o : JsonObj)
deriving DecidableEq, Repr

/-- Stats line of `simple_request` (`1_basic_request.py` line 81):
`tokens = result.get("eval_count", 0)`. -/
def simpleTokens (o : JsonObj) : Int := o.eval_count.getD 0

/-- Stats lines of `simple_request` (`1_basic_request.py` lines 82-83):
`duration_ns = result.get("total_duration", 0)` and
`duration_s = duration_ns / 1_000_000_000 if duration_ns else 0`
(Python truthiness: the division is skipped when `duration_ns` is 0). -/
def simpleDuration (o : JsonObj) : ℚ :=
  let duration_ns : Int := o.total_duration.getD 0
  if duration_ns = 0 then 0 else ((duration_ns : Int) : ℚ) / 1000000000

/-- Embedding of `simple_request` (`1_basic_request.py` lines 48-102):
on a parsed body it returns `result.get("response", "").strip()`; every
modelled failure (`ConnectionError`, or `Timeout`, `HTTPError` and the
JSON decode error, which are all `RequestException`s in requests ≥ 2.27)
is caught and `None` is returned. -/
def simple_request : NonStreamEvent → Option String
  | .body o => some (fragPiece o).trim
  | _ => none

/-- The dict returned by `query_ollama` (`app.py` lines 33-70): `tokens`
and `duration` are present only in the success dict. -/
structure QueryResult where
  response : String
  tokens : Option Int := none
  duration : Option ℚ := none
  status : String
deriving DecidableEq, Repr

/-- Embedding of `query_ollama` with `stream=False` (`app.py` lines
33-70).  On a parsed body it builds the success dict with
`result.get("response", "")`, `result.get("eval_count", 0)` and
`result.get("total_duration", 0) / 1e9`; the `ConnectionError` and
`Timeout` handlers return their fixed error dicts, and the generic
`except Exception` handler (which receives both `HTTPError` from
`raise_for_status` and the JSON decode error from `response.json()`)
returns the error dict with the formatted exception message. -/
def query_ollama : NonStreamEvent → QueryResult
  | .connError =>
      { response := "❌ Error: Cannot connect to Ollama API. Make sure to run \x27ollama serve\x27"
        status := "error" }
  | .timeoutError =>
      { response := "❌ Error: Request timed out. Try a simpler prompt."
        status := "error" }
  | .httpError m => { response := "❌ Error: " ++ m, status := "error" }
  | .jsonError m => { response := "❌ Error: " ++ m, status := "error" }
  | .body o =>
      { response := fragPiece o
        tokens := some (simpleTokens o)
        duration := some (((o.total_duration.getD 0 : Int) : ℚ) / 1000000000)
        status := "success" }

/-- Outcome classification of a non-streaming call by its cause, per the
spec taxonomy: a whole-body parse failure is `malformedFragment`; the
HTTP-status failure is the catch-all `otherError`. -/
def queryOutcome : NonStreamEvent → Outcome
  | .connError => .connectionFailed
  | .timeoutError => .timedOut
  | .httpError _ => .otherError
  | .jsonError _ => .malformedFragment
  | .body _ => .success

/-- The generated text extracted by a non-streaming call: the `response`
field of the parsed body; on every failure path the code never reaches
the extraction, so no generated text is produced. -/
def nonStreamGenText : NonStreamEvent → String
  | .body o => fragPiece o
  | _ => ""

/-- The accumulation loop is the left-accumulator form of the ordered
concatenation of the pieces. -/
theorem chatLoop_eq_concat (ls : List Line) :
    ∀ acc : String, chatLoop acc ls = acc ++ concatPieces ls := by
  induction ls with
  | nil =>
      intro acc
      simp [chatLoop, concatPieces, String.append_empty]
  | cons l rest ih =>
      intro acc
      cases l with
      | empty => simpa [chatLoop, concatPieces] using ih acc
      | malformed raw => simpa [chatLoop, concatPieces] using ih acc
      | fragment o =>
          simp [chatLoop, concatPieces, ih, String.append_assoc]

/-- `full_response` equals the ordered concatenation of the pieces. -/
theorem chatAccum_eq_concat (ls : List Line) :
    chatAccum ls = concatPieces ls := by
  simp [chatAccum, chatLoop_eq_concat, String.empty_append]

/-- Concatenated pieces split over list append. -/
theorem concatPieces_append (a b : List Line) :
    concatPieces (a ++ b) = concatPieces a ++ concatPieces b := by
  induction a with
  | nil => simp [concatPieces, String.empty_append]
  | cons l rest ih =>
      cases l with
      | empty => simpa [concatPieces] using ih
      | malformed raw => simpa [concatPieces] using ih
      | fragment o => simp [concatPieces, ih, String.append_assoc]

/-- Printed token sequence splits over list append. -/
theorem streamingTokens_append (a b : List Line) :
    streamingTokens (a ++ b) = streamingTokens a ++ streamingTokens b := by
  induction a with
  | nil => simp [streamingTokens]
  | cons l rest ih =>
      cases l with
      | empty => simpa [streamingTokens] using ih
      | malformed raw => simpa [streamingTokens] using ih
      | fragment o => simp [streamingTokens, ih]

/-- Claim C1: for every finite sequence of lines whose non-empty lines
parse as well-formed fragments and that ends in the single fragment with
`is_final=true`, the accumulated `full_response` equals the ordered
concatenation of every text piece, including the final piece. -/
theorem c1_stream_text_is_ordered_concat (init : List Line) (o : JsonObj)
    (hwf : ((init ++ [Line.fragment o]).all Line.wellFormed) = true)
    (hone : doneFrags init = [])
    (hfin : fragDone o = true) :
    chatAccum (init ++ [Line.fragment o]) =
      concatPieces init ++ fragPiece o := by
  rw [chatAccum_eq_concat, concatPieces_append]
  simp [concatPieces, String.append_empty]

/-- Witness for C1 at a concrete three-line stream ending in a final
fragment. -/
theorem c1_witness :
    (([Line.empty,
       Line.fragment ⟨some "Hi ", some false, none, none⟩,
       Line.fragment ⟨none, none, none, none⟩] ++
      [Line.fragment ⟨some "there", some true, some 5, some 1000⟩]).all
        Line.wellFormed = true) ∧
    doneFrags [Line.empty,
       Line.fragment ⟨some "Hi ", some false, none, none⟩,
       Line.fragment ⟨none, none, none, none⟩] = [] ∧
    fragDone ⟨some "there", some true, some 5, some 1000⟩ = true ∧
    chatAccum ([Line.empty,
       Line.fragment ⟨some "Hi ", some false, none, none⟩,
       Line.fragment ⟨none, none, none, none⟩] ++
      [Line.fragment ⟨some "there", some true, some 5, some 1000⟩]) =
      concatPieces [Line.empty,
       Line.fragment ⟨some "Hi ", some false, none, none⟩,
       Line.fragment ⟨none, none, none, none⟩] ++
        fragPiece ⟨some "there", some true, some 5, some 1000⟩ :=
  ⟨by decide, by decide, by decide,
    c1_stream_text_is_ordered_concat
      [Line.empty,
       Line.fragment ⟨some "Hi ", some false, none, none⟩,
       Line.fragment ⟨none, none, none, none⟩]
      ⟨some "there", some true, some 5, some 1000⟩
      (by decide) (by decide) (by decide)⟩

/-- Claim C2 counterexample: the loops have no `break`, so a line
following the first `done=true` fragment is still read and its piece is
appended: on the two-line stream
`[{response:"a", done:true}, {response:"b"}]` the accumulated text is
`"ab"`, not `"a"`, and the second token is printed. -/
theorem c2_counterexample :
    chatAccum [Line.fragment ⟨some "a", some true, none, none⟩,
               Line.fragment ⟨some "b", none, none, none⟩] = "ab" ∧
    streamingTokens [Line.fragment ⟨some "a", some true, none, none⟩,
               Line.fragment ⟨some "b", none, none, none⟩] = ["a", "b"] ∧
    ("ab" : String) ≠ "a" := by
  refine ⟨by decide, by decide, by decide⟩

/-- Claim C2 (amended): processing does not stop at a fragment with
`is_final=true`; every line after it is still read, and its text piece
still contributes to the accumulated text and to the printed token
sequence.  The stream only ends when the transport ends it. -/
theorem c2_consumption_continues_after_final (s1 s2 : List Line)
    (o : JsonObj) (hfin : fragDone o = true) :
    chatAccum (s1 ++ Line.fragment o :: s2) =
      chatAccum s1 ++ fragPiece o ++ chatAccum s2 ∧
    streamingTokens (s1 ++ Line.fragment o :: s2) =
      streamingTokens s1 ++ fragPiece o :: streamingTokens s2 := by
  constructor
  · rw [chatAccum_eq_concat, chatAccum_eq_concat, chatAccum_eq_concat]
    have h : Line.fragment o :: s2 = [Line.fragment o] ++ s2 := rfl
    rw [h, concatPieces_append, concatPieces_append]
    simp [concatPieces, String.append_empty, String.append_assoc]
  · have h : Line.fragment o :: s2 = [Line.fragment o] ++ s2 := rfl
    rw [h, streamingTokens_append, streamingTokens_append]
    simp [streamingTokens]

/-- Witness for the amended C2 at a concrete input where a fragment
follows the final fragment. -/
theorem c2_witness :
    fragDone ⟨some "a", some true, some 3, none⟩ = true ∧
    chatAccum ([] ++ Line.fragment ⟨some "a", some true, some 3, none⟩ ::
        [Line.fragment ⟨some "b", none, none, none⟩]) =
      chatAccum [] ++ fragPiece ⟨some "a", some true, some 3, none⟩ ++
        chatAccum [Line.fragment ⟨some "b", none, none, none⟩] ∧
    streamingTokens ([] ++
        Line.fragment ⟨some "a", some true, some 3, none⟩ ::
        [Line.fragment ⟨some "b", none, none, none⟩]) =
      streamingTokens [] ++
        fragPiece ⟨some "a", some true, some 3, none⟩ ::
        streamingTokens [Line.fragment ⟨some "b", none, none, none⟩] :=
  ⟨by decide,
    (c2_consumption_continues_after_final []
      [Line.fragment ⟨some "b", none, none, none⟩]
      ⟨some "a", some true, some 3, none⟩ (by decide)).1,
    (c2_consumption_continues_after_final []
      [Line.fragment ⟨some "b", none, none, none⟩]
      ⟨some "a", some true, some 3, none⟩ (by decide)).2⟩

/-- Claim C3: injecting a line that fails JSON parsing at any position
leaves the accumulated text (and the printed token sequence) exactly as
without it, and the lines after it are still consumed. -/
theorem c3_malformed_line_skipped (s1 s2 : List Line) (raw : String) :
    chatAccum (s1 ++ Line.malformed raw :: s2) = chatAccum (s1 ++ s2) ∧
    streamingTokens (s1 ++ Line.malformed raw :: s2) =
      streamingTokens (s1 ++ s2) := by
  constructor
  · rw [chatAccum_eq_concat, chatAccum_eq_concat]
    have h : Line.malformed raw :: s2 = [Line.malformed raw] ++ s2 := rfl
    rw [h, concatPieces_append, concatPieces_append, concatPieces_append]
    simp [concatPieces, String.empty_append]
  · have h : Line.malformed raw :: s2 = [Line.malformed raw] ++ s2 := rfl
    rw [h, streamingTokens_append, streamingTokens_append,
      streamingTokens_append]
    simp [streamingTokens]

/-- Claim C4: the token count equals the `eval_count` field (zero when
absent) and the duration in seconds equals `total_duration` divided by
1e9 (zero when absent), in `simple_request` and in `query_ollama`; in
particular `eval_count=42` with `total_duration=2000000000` gives a
token count of 42 and a duration of 2 seconds. -/
theorem c4_token_count_and_duration (o : JsonObj) :
    simpleTokens o = o.eval_count.getD 0 ∧
    (query_ollama (.body o)).tokens = some (o.eval_count.getD 0) ∧
    simpleDuration o = ((o.total_duration.getD 0 : Int) : ℚ) / 1000000000 ∧
    (query_ollama (.body o)).duration =
      some (((o.total_duration.getD 0 : Int) : ℚ) / 1000000000) ∧
    simpleTokens ⟨some "ok", some true, some 42, some 2000000000⟩ = 42 ∧
    simpleDuration ⟨some "ok", some true, some 42, some 2000000000⟩ = 2 ∧
    query_ollama (.body ⟨some "ok", some true, some 42, some 2000000000⟩) =
      ⟨"ok", some 42, some 2, "success"⟩ := by
  refine ⟨rfl, rfl, ?_, rfl, rfl, ?_, ?_⟩
  · by_cases h : (o.total_duration.getD 0 : Int) = 0
    · simp [simpleDuration, h]
    · simp [simpleDuration, h]
  · norm_num [simpleDuration]
  · simp only [query_ollama, fragPiece, simpleTokens, Option.getD]
    norm_num

/-- Claim C5 counterexample: with two fragments consumed and then a
transport connection failure, `OllamaChatbot.chat` returns `None`: the
result does not carry the partial text `"Hello"`, contrary to the
claimed preservation (the pieces were only echoed to stdout live). -/
theorem c5_counterexample :
    chat [] "q" (.stream
        [Line.fragment ⟨some "He", none, none, none⟩,
         Line.fragment ⟨some "llo", none, none, none⟩] (some .conn)) =
      ⟨[], none, .connectionFailed⟩ ∧
    concatPieces [Line.fragment ⟨some "He", none, none, none⟩,
         Line.fragment ⟨some "llo", none, none, none⟩] = "Hello" ∧
    (none : Option String) ≠ some "Hello" := by
  refine ⟨by decide, by decide, by decide⟩

/-- Claim C5 (amended): a transport-level connection failure after some
fragments have been consumed aborts the call with outcome
`connectionFailed`, but the accumulated partial text is discarded — the
call returns `None` and the history is unchanged; the pieces survive
only on the live output printed as they arrived. -/
theorem c5_conn_failure_discards_partial_text (hist : List Exchange)
    (msg : String) (lines : List Line) :
    chat hist msg (.stream lines (some .conn)) =
      ⟨hist, none, .connectionFailed⟩ ∧
    (chat hist msg (.stream lines (some .conn))).outcome =
      .connectionFailed ∧
    (chat hist msg (.stream lines (some .conn))).reply = none := by
  exact ⟨rfl, rfl, rfl⟩

/-- Claim C6: a stream that ends cleanly with no `done=true` fragment —
including the empty stream — yields a successful call whose text is the
concatenation of the consumed pieces, with zero token count and zero
duration. -/
theorem c6_clean_end_without_final (hist : List Exchange) (msg : String)
    (lines : List Line) (h : doneFrags lines = []) :
    chat hist msg (.stream lines none) =
      ⟨hist ++ [⟨msg, (concatPieces lines).trim⟩],
        some (concatPieces lines), .success⟩ ∧
    streamTokenCount lines = 0 ∧
    streamDuration lines = 0 := by
  refine ⟨?_, ?_, ?_⟩
  · simp [chat, chatAccum_eq_concat]
  · simp [streamTokenCount, h]
  · simp [streamDuration, h]

/-- Witness for C6 at the entirely empty stream. -/
theorem c6_witness :
    doneFrags [] = [] ∧
    (chat [] "m" (.stream [] none) =
      ⟨[] ++ [⟨"m", (concatPieces []).trim⟩], some (concatPieces []),
        .success⟩ ∧
     streamTokenCount [] = 0 ∧
     streamDuration [] = 0) :=
  ⟨rfl, c6_clean_end_without_final [] "m" [] rfl⟩

/-- Claim C7: a non-streaming call whose whole body fails to parse as
JSON is classified `malformedFragment`, returns the error status with no
generated text (`simple_request` returns `None`, `query_ollama` returns
the error dict); and `malformedFragment` arises on no other modelled
cause — in particular never from per-line parse failures in streaming
mode, whose runs end `success` on a clean end and with the transport
classification otherwise. -/
theorem c7_malformed_body_only_non_streaming (m : String)
    (hist : List Exchange) (msg : String) (lines : List Line) :
    queryOutcome (.jsonError m) = .malformedFragment ∧
    (query_ollama (.jsonError m)).status = "error" ∧
    nonStreamGenText (.jsonError m) = "" ∧
    simple_request (.jsonError m) = none ∧
    queryOutcome .connError = .connectionFailed ∧
    queryOutcome .timeoutError = .timedOut ∧
    (∀ m2 : String, queryOutcome (.httpError m2) = .otherError) ∧
    (∀ o : JsonObj, queryOutcome (.body o) = .success) ∧
    (chat hist msg (.stream lines none)).outcome = .success ∧
    (∀ k : ErrKind, (chat hist msg (.stream lines (some k))).outcome =
        errOutcome k) ∧
    (∀ k : ErrKind, errOutcome k ≠ .malformedFragment) := by
  refine ⟨rfl, rfl, rfl, rfl, rfl, rfl, fun _ => rfl, fun _ => rfl, rfl,
    fun k => rfl, fun k => ?_⟩
  cases k <;> simp [errOutcome]

/-- Claim C8: a successfully parsed fragment never fails on missing
fields — an absent text field yields the empty piece, an absent
completion flag yields `false` — and an empty line is skipped without
emitting a token or a piece. -/
theorem c8_missing_fields_default (o : JsonObj) (rest : List Line)
    (acc : String) (h1 : o.response = none) (h2 : o.done = none) :
    fragPiece o = "" ∧ fragDone o = false ∧
    chatLoop acc (Line.empty :: rest) = chatLoop acc rest ∧
    streamingTokens (Line.empty :: rest) = streamingTokens rest ∧
    textPieces (Line.empty :: rest) = textPieces rest := by
  refine ⟨?_, ?_, rfl, rfl, rfl⟩
  · simp [fragPiece, h1]
  · simp [fragDone, h2]

/-- Witness for C8 at the empty JSON object. -/
theorem c8_witness :
    (JsonObj.mk none none none none).response = none ∧
    (JsonObj.mk none none none none).done = none ∧
    (fragPiece ⟨none, none, none, none⟩ = "" ∧
     fragDone ⟨none, none, none, none⟩ = false ∧
     chatLoop "x" (Line.empty :: [Line.empty]) = chatLoop "x" [Line.empty] ∧
     streamingTokens (Line.empty :: [Line.empty]) =
       streamingTokens [Line.empty] ∧
     textPieces (Line.empty :: [Line.empty]) = textPieces [Line.empty]) :=
  ⟨rfl, rfl, c8_missing_fields_default ⟨none, none, none, none⟩
    [Line.empty] "x" rfl rfl⟩

/-- Claim C9: `OllamaChatbot.chat` updates the conversation history
atomically: every call either returns `None` with the history exactly as
before, or returns the accumulated response with exactly one exchange —
the user message paired with the stripped response — appended at the
end. -/
theorem c9_chat_history_atomic (hist : List Exchange) (msg : String)
    (e : ChatEvent) :
    ((chat hist msg e).reply = none ∧ (chat hist msg e).history = hist) ∨
    (∃ r : String, (chat hist msg e).reply = some r ∧
      (chat hist msg e).history = hist ++ [⟨msg, r.trim⟩]) := by
  cases e with
  | pre k => exact Or.inl ⟨rfl, rfl⟩
  | stream lines ending =>
      cases ending with
      | none => exact Or.inr ⟨chatAccum lines, rfl, rfl⟩
      | some k => exact Or.inl ⟨rfl, rfl⟩
  | whole parsed =>
      cases parsed with
      | none => exact Or.inl ⟨rfl, rfl⟩
      | some o => exact Or.inr ⟨fragPiece o, rfl, rfl⟩

/-- Claim C10: `query_ollama` with `stream=False` always returns a dict
whose status is either `"success"` or `"error"`, and the status is
`"success"` exactly when the HTTP request completed with a successful
status and a JSON body. -/
theorem c10_query_ollama_total (e : NonStreamEvent) :
    ((query_ollama e).status = "success" ∨
     (query_ollama e).status = "error") ∧
    ((query_ollama e).status = "success" ↔ ∃ o : JsonObj, e = .body o) := by
  cases e with
  | connError =>
      refine ⟨Or.inr rfl, ⟨fun h => absurd h (by decide), ?_⟩⟩
      rintro ⟨o, ho⟩; exact absurd ho (by simp)
  | timeoutError =>
      refine ⟨Or.inr rfl, ⟨fun h => absurd h (by decide), ?_⟩⟩
      rintro ⟨o, ho⟩; exact absurd ho (by simp)
  | httpError m =>
      refine ⟨Or.inr rfl, ⟨fun h => absurd h (by simp only [query_ollama]; decide), ?_⟩⟩
      rintro ⟨o, ho⟩; exact absurd ho (by simp)
  | jsonError m =>
      refine ⟨Or.inr rfl, ⟨fun h => absurd h (by simp only [query_ollama]; decide), ?_⟩⟩
      rintro ⟨o, ho⟩; exact absurd ho (by simp)
  | body o => exact ⟨Or.inl rfl, ⟨fun _ => ⟨o, rfl⟩, fun _ => rfl⟩⟩

end OllamaHub
